import Mathlib

/-!
Shallow embedding of the `crucible` language front-end of the mothtools
repository (src/crucible/parser/*.rs and src/mothlib/lantern/mod.rs).

The Rust code is written with the `nom` parser-combinator library.  We embed
parsers as functions `List Char → PResult α`, where `PResult` mirrors nom's
`IResult`: `ok` carries the unconsumed remainder and the value, `err` is a
recoverable `nom::Err::Error` (backtrackable among ordered alternatives) and
`fail` is a fatal `nom::Err::Failure`.  `todo!()` panics inside the semantic
construction functions are embedded as `fail` results carrying a `SemErr`
tag, since a panic aborts the parse of the file unconditionally.
-/

set_option linter.unusedVariables false

/-- Semantic-failure tags for the `todo!()` panic sites of the semantic
construction functions (`aspect_from_tokens`, `card_from_tokens`,
`deck_from_tokens`, `card_aspects`, `ending::parse`). -/
inductive SemErr where
  | duplicateAssignment
  | signatureOnlyField
  | typeMismatch
  | duplicateInduce
  | duplicateUnique
  | duplicateUniqueGroup
  | duplicateDefault
  | duplicateAspect
  | notAnObject
  | missingRequiredKey
  | invalidEnumValue
  deriving DecidableEq, Repr

/-- The nom `ErrorKind` codes used by the embedded parsers, plus `sem` for
embedded `todo!()` panics. -/
inductive EKind where
  | tagK
  | charK
  | takeWhile1K
  | nonEmpty
  | separatedList
  | many0K
  | altK
  | verifyK
  | digitK
  | takeUntilK
  | isNotK
  | crlfK
  | permutationK
  | sem (e : SemErr)
  deriving DecidableEq, Repr

/-- nom's `IResult`: success with remainder, recoverable `Error`, or fatal
`Failure`; both error forms carry the input at the point of error. -/
inductive PResult (α : Type) where
  | ok (remain : List Char) (val : α)
  | err (input : List Char) (code : EKind)
  | fail (input : List Char) (code : EKind)
  deriving Repr

/-- A parser over `&str` input, embedded as a function on the char list. -/
def Parser (α : Type) : Type := List Char → PResult α

def pPure {α : Type} (v : α) : Parser α := fun i => .ok i v

def pBind {α β : Type} (p : Parser α) (f : α → Parser β) : Parser β := fun i =>
  match p i with
  | .ok r v => f v r
  | .err i c => .err i c
  | .fail i c => .fail i c

instance : Monad Parser where
  pure := pPure
  bind := pBind

/-- nom `tag`: exact string prefix match, recoverable error otherwise. -/
def tagP (s : String) : Parser (List Char) := fun i =>
  if s.toList.isPrefixOf i then .ok (i.drop s.length) s.toList else .err i .tagK

/-- nom `tag_no_case`: case-insensitive prefix match, returning the consumed
slice of the input (original casing). -/
def tagNoCase (s : String) : Parser (List Char) := fun i =>
  if (s.toList.map Char.toLower).isPrefixOf (i.map Char.toLower) then
    .ok (i.drop s.length) (i.take s.length)
  else .err i .tagK

/-- nom `char`: match one exact character. -/
def charP (c : Char) : Parser Char := fun i =>
  match i with
  | c' :: rest => if c' = c then .ok rest c else .err i .charK
  | [] => .err i .charK

/-- nom `take_while1`: longest non-empty run of characters satisfying `f`. -/
def takeWhile1 (f : Char → Bool) : Parser (List Char) := fun i =>
  let t := i.takeWhile f
  if t.isEmpty then .err i .takeWhile1K else .ok (i.drop t.length) t

/-- The characters accepted by nom's `multispace0`/`multispace1`. -/
def isMultiSpace (c : Char) : Bool :=
  c = ' ' || c = '\t' || c = '\r' || c = '\n'

/-- nom `multispace0`: drop any run (possibly empty) of whitespace. -/
def multispace0 : Parser Unit := fun i => .ok (i.dropWhile isMultiSpace) ()

/-- nom `multispace1`: at least one whitespace character. -/
def multispace1 : Parser Unit := fun i =>
  let t := i.takeWhile isMultiSpace
  if t.isEmpty then .err i .takeWhile1K else .ok (i.drop t.length) ()

/-- nom `line_ending`: `\n` or `\r\n`. -/
def lineEnding : Parser (List Char) := fun i =>
  match i with
  | '\n' :: rest => .ok rest ['\n']
  | '\r' :: '\n' :: rest => .ok rest ['\r', '\n']
  | _ => .err i .crlfK

/-- nom `opt`: recoverable errors become `none` without consuming input;
fatal failures still propagate. -/
def optP {α : Type} (p : Parser α) : Parser (Option α) := fun i =>
  match p i with
  | .ok r v => .ok r (some v)
  | .err _ _ => .ok i none
  | .fail i c => .fail i c

/-- nom `alt` over two alternatives: the second runs only when the first
returns a recoverable error. -/
def alt2 {α : Type} (p q : Parser α) : Parser α := fun i =>
  match p i with
  | .err _ _ => q i
  | r => r

/-- nom `success`: consume nothing, return the given value. -/
def successP {α : Type} (v : α) : Parser α := fun i => .ok i v

/-- nom `verify`: run the inner parser and check the predicate. -/
def verifyP {α : Type} (p : Parser α) (f : α → Bool) : Parser α := fun i =>
  match p i with
  | .ok r v => if f v then .ok r v else .err i .verifyK
  | e => e

/-- nom `delimited(ws, inner, ws)` — the `ws` combinator from
src/crucible/parser/mod.rs lines 421-430: strips leading and trailing
whitespace around `inner`. -/
def ws {α : Type} (inner : Parser α) : Parser α := do
  multispace0
  let v ← inner
  multispace0
  pure v

def digitsToNat (ds : List Char) : Nat :=
  ds.foldl (fun acc c => acc * 10 + (c.toNat - '0'.toNat)) 0

/-- nom `character::complete::u8`: decimal digits, error on overflow. -/
def u8P : Parser Nat := fun i =>
  match takeWhile1 (fun c => c.isDigit) i with
  | .ok r ds =>
      let n := digitsToNat ds
      if n ≤ 255 then .ok r n else .err i .digitK
  | .err i c => .err i c
  | .fail i c => .fail i c

/-- nom `character::complete::u32`: decimal digits, error on overflow. -/
def u32P : Parser Nat := fun i =>
  match takeWhile1 (fun c => c.isDigit) i with
  | .ok r ds =>
      let n := digitsToNat ds
      if n ≤ 4294967295 then .ok r n else .err i .digitK
  | .err i c => .err i c
  | .fail i c => .fail i c

/-- nom `character::complete::i32`: optional sign, decimal digits, error on
overflow. -/
def i32P : Parser Int := fun i =>
  let (sign, rest) : Int × List Char :=
    match i with
    | '-' :: r => (-1, r)
    | '+' :: r => (1, r)
    | _ => (1, i)
  match takeWhile1 (fun c => c.isDigit) rest with
  | .ok r ds =>
      let n : Int := sign * digitsToNat ds
      if -2147483648 ≤ n ∧ n ≤ 2147483647 then .ok r n else .err i .digitK
  | .err _ c => .err i c
  | .fail i c => .fail i c

/-- Loop of nom `separated_list0` (nom 7): after a first element, each
iteration parses the separator (erroring with `SeparatedList` when the
separator consumes nothing — nom's infinite-loop check) and then the next
element; a recoverable error from either ends the list.  The fuel argument
only bounds the recursion; it is instantiated with `input.length + 1`, which
a separator that is forced to consume input can never exhaust. -/
def sepGo {α β : Type} (sep : Parser β) (p : Parser α) :
    Nat → List Char → List α → PResult (List α)
  | 0, i, _ => .err i .separatedList
  | fuel + 1, i, acc =>
    match sep i with
    | .err _ _ => .ok i acc
    | .fail j c => .fail j c
    | .ok i1 _ =>
      if i1.length = i.length then .err i1 .separatedList
      else
        match p i1 with
        | .err _ _ => .ok i acc
        | .fail j c => .fail j c
        | .ok i2 o => sepGo sep p fuel i2 (acc ++ [o])

/-- nom `separated_list0`. -/
def sepList0 {α β : Type} (sep : Parser β) (p : Parser α) : Parser (List α) :=
  fun i =>
    match p i with
    | .err _ _ => .ok i []
    | .fail j c => .fail j c
    | .ok i1 o => sepGo sep p (i.length + 1) i1 [o]

/-- Loop of nom `many0`: collect until a recoverable error; erroring with
`Many0` when an iteration consumes nothing (nom's infinite-loop check). -/
def many0Go {α : Type} (p : Parser α) : Nat → List Char → List α → PResult (List α)
  | 0, i, _ => .err i .many0K
  | fuel + 1, i, acc =>
    match p i with
    | .err _ _ => .ok i acc
    | .fail j c => .fail j c
    | .ok i1 o =>
      if i1.length = i.length then .err i .many0K
      else many0Go p fuel i1 (acc ++ [o])

/-- nom `many0`. -/
def many0 {α : Type} (p : Parser α) : Parser (List α) :=
  fun i => many0Go p (i.length + 1) i []

/-- nom `permutation` for a pair of parsers: both must succeed, in either
input order; the result tuple is always in parser order. -/
def permutation2 {α β : Type} (pa : Parser α) (pb : Parser β) : Parser (α × β) :=
  fun i =>
    match pa i with
    | .fail j c => .fail j c
    | .ok i1 a =>
      (match pb i1 with
       | .ok i2 b => .ok i2 (a, b)
       | .err j _ => .err j .permutationK
       | .fail j c => .fail j c)
    | .err _ _ =>
      match pb i with
      | .ok i1 b =>
        (match pa i1 with
         | .ok i2 a => .ok i2 (a, b)
         | .err j _ => .err j .permutationK
         | .fail j c => .fail j c)
      | .err j c => .err j c
      | .fail j c => .fail j c

/-- Index of the first occurrence of `s` in `l`, if any. -/
def findSub (s : List Char) : List Char → Option Nat
  | [] => if s.isEmpty then some 0 else none
  | c :: rest =>
    if s.isPrefixOf (c :: rest) then some 0 else (findSub s rest).map (· + 1)

/-- nom `take_until`: consume up to (not including) the first occurrence of
the given string. -/
def takeUntilP (s : String) : Parser (List Char) := fun i =>
  match findSub s.toList i with
  | some n => .ok (i.drop n) (i.take n)
  | none => .err i .takeUntilK

/-- nom `is_not`: longest non-empty run of characters not in the set. -/
def isNotP (s : String) : Parser (List Char) := fun i =>
  let t := i.takeWhile (fun c => !(s.toList.contains c))
  if t.isEmpty then .err i .isNotK else .ok (i.drop t.length) t

/-- Rust `DefKey(pub String)` (src/mothlib/lantern/mod.rs). -/
structure DefKey where
  s : String
  deriving DecidableEq, Repr

/-- Modelled from the spec: the literal-value type `json::Value` (declared
`pub mod json;` in src/mothlib/lantern/mod.rs) is absent from src/.  Spec
§4.1: Literal is Null | Boolean | Number | String | Array | Object.  A
number is kept as its signed integer part plus the literal fractional
digits, since no claim depends on numeric literals and floating point is
not shallowly embeddable.  Constructor names `Str`, `Boolean`, `Object`
follow the pattern matches in the source (`json::Value::Str` etc.). -/
inductive Value where
  | Null
  | Boolean (b : Bool)
  | Number (whole : Int) (frac : List Char)
  | Str (s : String)
  | Arr (items : List Value)
  | Object (fields : List (String × Value))

/-- Rust `struct Probability { inner: u8 }` (src/mothlib/lantern/mod.rs
lines 728-731); the `u8` payload is embedded as a `Nat` that a `u8`-typed
caller can only instantiate below 256. -/
structure Probability where
  inner : Nat
  deriving DecidableEq, Repr

/-- `Probability::new` (src/mothlib/lantern/mod.rs lines 733-740): values in
`0..=100` are accepted, anything else trips the `bail!` (the spec's
`InvalidProbability` error). -/
def Probability.new (value : Nat) : Except String Probability :=
  if value ≤ 100 then .ok ⟨value⟩
  else .error "a probability value must be an integer in the range 0..=100"

/-- `impl From<Probability> for u8` (src/mothlib/lantern/mod.rs lines
749-753): unwraps the inner integer. -/
def probToU8 (p : Probability) : Nat := p.inner

/-- Rust `struct Attribute` (src/mothlib/lantern/mod.rs). -/
structure Attribute where
  key : DefKey
  value : Option Value

/-- Rust `enum SlotFilter` (src/mothlib/lantern/mod.rs lines 578-589). -/
inductive SlotFilter where
  | Accept (element : DefKey) (amount : Nat)
  | Forbid (element : DefKey) (amount : Nat)
  deriving DecidableEq, Repr

/-- Rust `struct Slot` (src/mothlib/lantern/mod.rs lines 545-574). -/
structure Slot where
  id : DefKey
  label : String
  description : String
  consumes : Bool
  greedy : Bool
  requirements : List SlotFilter
  deriving DecidableEq, Repr

/-- Rust `enum Xtrigger` (src/mothlib/lantern/mod.rs lines 715-725);
`amount` is `u32` for Transform/Spawn and `i32` for Mutate. -/
inductive Xtrigger where
  | Transform (catalyst : DefKey) (transforms_to : DefKey) (amount : Nat) (chance : Probability)
  | Spawn (catalyst : DefKey) (creates : DefKey) (amount : Nat) (chance : Probability)
  | Mutate (catalyst : DefKey) (adds_to_catalyst : DefKey) (amount : Int) (chance : Probability)
  deriving DecidableEq, Repr

/-- Body of a quoted string literal: characters until the closing quote,
with backslash escapes. -/
def strBody (acc : List Char) : List Char → Option (List Char × List Char)
  | [] => none
  | '"' :: rest => some (acc, rest)
  | '\\' :: c :: rest =>
    let e : Char :=
      if c = 'n' then '\n' else if c = 't' then '\t' else if c = 'r' then '\r' else c
    strBody (acc ++ [e]) rest
  | c :: rest => strBody (acc ++ [c]) rest

/-- Modelled from the spec: the module `string` (declared `mod string;` in
src/crucible/parser/mod.rs) is absent from src/.  Spec §4.1/§4.4: quoted
strings with standard escapes.  Parses `"` …chars/escapes… `"`. -/
def stringParse : Parser String := fun i =>
  match i with
  | '"' :: rest =>
    (match strBody [] rest with
     | some (cs, r) => .ok r (String.mk cs)
     | none => .err i .tagK)
  | _ => .err i .charK

/-- Decimal number literal for the modelled `json` module: optional minus
sign, integer digits, optional fractional digits kept verbatim. -/
def numberP : Parser Value := fun i =>
  let (sign, rest) : Int × List Char :=
    match i with
    | '-' :: r => (-1, r)
    | _ => (1, i)
  match takeWhile1 (fun c => c.isDigit) rest with
  | .ok r ds =>
    (match r with
     | '.' :: r2 =>
       (match takeWhile1 (fun c => c.isDigit) r2 with
        | .ok r3 fs => .ok r3 (.Number (sign * digitsToNat ds) fs)
        | _ => .ok r (.Number (sign * digitsToNat ds) []))
     | _ => .ok r (.Number (sign * digitsToNat ds) []))
  | _ => .err i .digitK

/-- One `"key" : value` member of a literal object. -/
def objMember (elem : Parser Value) : Parser (String × Value) := do
  let k ← ws stringParse
  let _ ← charP ':'
  let v ← ws elem
  pure (k, v)

/-- Bracketed, comma-separated literal array. -/
def arrayP (elem : Parser Value) : Parser Value := do
  let _ ← charP '['
  let items ← sepList0 (charP ',') (ws elem)
  multispace0
  let _ ← charP ']'
  pure (.Arr items)

/-- Braced, comma-separated literal object. -/
def objectP (elem : Parser Value) : Parser Value := do
  let _ ← charP '{'
  let fields ← sepList0 (charP ',') (objMember elem)
  multispace0
  let _ ← charP '}'
  pure (.Object fields)

/-- Modelled from the spec: the literal-value parser `json::parse`
(src/mothlib/lantern/json.rs is absent from src/).  Spec §4.1: parses a
Literal — null, boolean, number, string, array, object — with nested
arrays/objects.  Fuel bounds the nesting depth; one character is consumed
per level, so `input.length + 1` can never be exhausted. -/
def jsonGo : Nat → Parser Value
  | 0 => fun i => .err i .altK
  | fuel + 1 =>
    alt2 (pBind (tagP "null") (fun _ => pPure .Null)) <|
    alt2 (pBind (tagP "true") (fun _ => pPure (.Boolean true))) <|
    alt2 (pBind (tagP "false") (fun _ => pPure (.Boolean false))) <|
    alt2 (pBind stringParse (fun s => pPure (.Str s))) <|
    alt2 numberP <|
    alt2 (arrayP (jsonGo fuel)) (objectP (jsonGo fuel))

/-- `json::parse` entry point. -/
def jsonParse : Parser Value := fun i => jsonGo (i.length + 1) i

/-- `fn defkey` (src/crucible/parser/mod.rs lines 157-170): one-or-more run
of `[A-Za-z0-9_\-$.]`. -/
def isDefkeyChar (c : Char) : Bool :=
  ('a' ≤ c && c ≤ 'z') || ('A' ≤ c && c ≤ 'Z') || ('0' ≤ c && c ≤ '9') ||
  c = '_' || c = '-' || c = '$' || c = '.'

/-- `fn defkey` (src/crucible/parser/mod.rs lines 157-170). -/
def defkey : Parser DefKey := fun i =>
  match takeWhile1 isDefkeyChar i with
  | .ok r cs => .ok r ⟨String.mk cs⟩
  | .err j c => .err j c
  | .fail j c => .fail j c

/-- `fn value` (src/crucible/parser/mod.rs lines 172-174): delegates to
`json::parse`. -/
def valueP : Parser Value := jsonParse

/-- Inner `defkey_value` alternative of `fn attr` (src/crucible/parser/mod.rs
lines 146-153). -/
def attrDefkeyValue : Parser Attribute := do
  let k ← ws defkey
  let _ ← charP '='
  let v ← ws valueP
  pure ⟨k, some v⟩

/-- Inner `only_defkey` alternative of `fn attr` (src/crucible/parser/mod.rs
lines 142-145). -/
def attrOnlyDefkey : Parser Attribute := do
  let k ← ws defkey
  pure ⟨k, none⟩

/-- `fn attr` (src/crucible/parser/mod.rs lines 141-155). -/
def attrP : Parser Attribute := alt2 attrDefkeyValue attrOnlyDefkey

/-- `fn global_attr` (src/crucible/parser/mod.rs lines 129-135):
`#!` `[` attr `]`. -/
def globalAttr : Parser Attribute := do
  let _ ← tagP "#!"
  let _ ← charP '['
  let a ← attrP
  let _ ← charP ']'
  pure a

/-- `fn local_attr` (src/crucible/parser/mod.rs lines 137-139):
`#` `[` attr `]`. -/
def localAttr : Parser Attribute := do
  let _ ← charP '#'
  let _ ← charP '['
  let a ← attrP
  let _ ← charP ']'
  pure a

/-- `fn hidden` (src/crucible/parser/mod.rs lines 249-255): `hidden` or `?`. -/
def hiddenP : Parser Unit := do
  let _ ← alt2 (tagP "hidden") (tagP "?")
  pure ()

/-- `fn comment` (src/crucible/parser/mod.rs lines 432-436): `//` up to the
end of line.  Defined in the source but never invoked by any other parser. -/
def comment : Parser Unit := do
  let _ ← tagP "//"
  let _ ← isNotP "\n\r"
  pure ()

/-- `fn block_comment` (src/crucible/parser/mod.rs lines 438-441):
`(*` … `*)`.  Defined in the source but never invoked by any other parser. -/
def block_comment : Parser Unit := do
  let _ ← tagP "(*"
  let _ ← takeUntilP "*)"
  let _ ← tagP "*)"
  pure ()

/-- `fn chance` (src/crucible/parser/mod.rs lines 443-451): a `u8` verified
to lie in `0..=100`, optionally followed by `%`; the `Probability` is then
constructed (the verify makes the `.expect` unreachable, embedded by
defaulting to probability 0 in the impossible branch). -/
def chanceP : Parser Probability := do
  let n ← verifyP u8P (fun n => n ≤ 100)
  let _ ← optP (charP '%')
  match Probability.new n with
  | .ok p => pure p
  | .error _ => fun i => .err i .verifyK

/-- nom `pair`/`tuple` of two parsers. -/
def pairP {α β : Type} (p : Parser α) (q : Parser β) : Parser (α × β) := do
  let a ← p
  let b ← q
  pure (a, b)

/-- The local `enum XtriggerKind` inside `fn xtrigger`
(src/crucible/parser/mod.rs lines 258-262). -/
inductive XtriggerKind where
  | Transform (target : DefKey) (amount : Nat) (chance : Probability)
  | Spawn (target : DefKey) (amount : Nat) (chance : Probability)
  | Mutate (target : DefKey) (amount : Int) (chance : Probability)
  deriving DecidableEq, Repr

/-- `fn spawn` inside `fn xtrigger` (src/crucible/parser/mod.rs lines
263-277): `spawn <target>:<u32> [<chance>]`, chance defaulting to 100. -/
def xtriggerSpawn : Parser XtriggerKind := do
  let _ ← ws (tagNoCase "spawn")
  multispace0
  let target ← defkey
  let _ ← charP ':'
  let amount ← u32P
  multispace0
  let chance ← optP chanceP
  multispace0
  pure (.Spawn target amount (chance.getD ⟨100⟩))

/-- `fn mutate` inside `fn xtrigger` (src/crucible/parser/mod.rs lines
278-292): `mutate <target>:<i32> [<chance>]`, chance defaulting to 100. -/
def xtriggerMutate : Parser XtriggerKind := do
  let _ ← ws (tagNoCase "mutate")
  multispace0
  let target ← defkey
  let _ ← charP ':'
  let amount ← i32P
  multispace0
  let chance ← optP chanceP
  multispace0
  pure (.Mutate target amount (chance.getD ⟨100⟩))

/-- `fn transform` inside `fn xtrigger` (src/crucible/parser/mod.rs lines
293-306): `<target>:<u32> [<chance>]`, chance defaulting to 100. -/
def xtriggerTransform : Parser XtriggerKind := do
  multispace0
  let target ← defkey
  let _ ← charP ':'
  let amount ← u32P
  multispace0
  let chance ← optP chanceP
  multispace0
  pure (.Transform target amount (chance.getD ⟨100⟩))

/-- `fn basic` inside `fn xtrigger` (src/crucible/parser/mod.rs lines
307-315): bare `<target> [<chance>]`, amount defaulting to 1 and chance to
100. -/
def xtriggerBasic : Parser XtriggerKind := do
  let target ← ws defkey
  let chance ← optP (ws chanceP)
  pure (.Transform target 1 (chance.getD ⟨100⟩))

/-- `fn xtrigger` (src/crucible/parser/mod.rs lines 257-351):
`xtrigger <catalyst> -> <reaction>`, alternatives tried in the order
spawn, mutate, transform, basic. -/
def xtrigger : Parser Xtrigger := do
  let _ ← ws (tagP "xtrigger")
  let catalyst ← ws defkey
  let _ ← ws (tagP "->")
  let k ← alt2 (ws xtriggerSpawn) <|
          alt2 (ws xtriggerMutate) <|
          alt2 (ws xtriggerTransform) (ws xtriggerBasic)
  pure
    (match k with
     | .Transform target amount chance => .Transform catalyst target amount chance
     | .Spawn target amount chance => .Spawn catalyst target amount chance
     | .Mutate target amount chance => .Mutate catalyst target amount chance)

/-- Lowercasing of a consumed slice, as `to_lowercase()` in `slotkind`. -/
def lowerStr (cs : List Char) : String := String.mk (cs.map Char.toLower)

/-- `fn slotkind` inside `fn slot` (src/crucible/parser/mod.rs lines
357-378): the capacity-modifier alternatives, mapped through the
`to_lowercase` matches to `(isConsume, isGreedy)`.  The single-modifier
alternatives are embedded exactly as written in the source, including which
tuple slot each modifier lands in. -/
def slotkind : Parser (Option Unit × Option Unit) := do
  let (isConsume, isGreedy) ←
    alt2 (permutation2 (ws (tagP "!")) (ws (tagP "?"))) <|
    alt2 (permutation2 (ws (tagNoCase "consume")) (ws (tagNoCase "greedy"))) <|
    alt2 (pairP (successP ([] : List Char)) (ws (tagP "!"))) <|
    alt2 (pairP (ws (tagP "?")) (successP ([] : List Char))) <|
    alt2 (pairP (successP ([] : List Char)) (ws (tagNoCase "consume")))
         (pairP (ws (tagNoCase "greedy")) (successP ([] : List Char)))
  let isConsumeFlag : Option Unit :=
    if lowerStr isConsume = "!" ∨ lowerStr isConsume = "consume" then some () else none
  let isGreedyFlag : Option Unit :=
    if lowerStr isGreedy = "?" ∨ lowerStr isGreedy = "greedy" then some () else none
  pure (isConsumeFlag, isGreedyFlag)

/-- `fn slotfilter` inside `fn slot` (src/crucible/parser/mod.rs lines
379-392): `[!]<element>:<amount>`; the source maps a present `!` to
`SlotFilter::Accept` and an absent one to `SlotFilter::Forbid`. -/
def slotfilter : Parser SlotFilter := do
  let forbid ← optP (charP '!')
  let element ← defkey
  let _ ← charP ':'
  let amount ← u32P
  pure
    (match forbid with
     | some _ => .Accept element amount
     | none => .Forbid element amount)

/-- `fn slot` (src/crucible/parser/mod.rs lines 355-417): optional capacity
modifiers, the `slot` keyword, id, label, description, and an optional
parenthesized filter list. -/
def slotP : Parser Slot := do
  let kind ← optP (ws slotkind)
  let _ ← ws (tagNoCase "slot")
  let id ← ws defkey
  let label ← ws stringParse
  let description ← ws stringParse
  let requirements ← optP (do
    let _ ← ws (charP '(')
    let l ← sepList0 (charP ',') slotfilter
    let _ ← ws (charP ')')
    pure l)
  let flags : Bool × Bool :=
    match kind with
    | some (isConsume, isGreedy) => (isConsume.isSome, isGreedy.isSome)
    | none => (false, false)
  pure ⟨id, label, description, flags.1, flags.2, requirements.getD []⟩

/-- Rust `struct Aspect` (src/mothlib/lantern/mod.rs lines 62-113); the
`others` HashMap is embedded as an association list in insertion order. -/
structure Aspect where
  id : DefKey
  label : String
  description : String
  icon : Option String
  verbicon : Option String
  induces : Option (DefKey × Probability)
  decays_to : Option DefKey
  hidden : Bool
  xtriggers : List Xtrigger
  others : List (DefKey × Value)

/-- Rust `struct Card` (src/mothlib/lantern/mod.rs lines 120-203); the
HashMaps are embedded as association lists in insertion order. -/
structure Card where
  id : DefKey
  label : String
  description : String
  icon : Option String
  verbicon : Option String
  induces : Option (DefKey × Probability)
  decays_to : Option DefKey
  hidden : Bool
  aspects : List (DefKey × Nat)
  lifetime : Option Nat
  resaturate : Bool
  unique : Bool
  uniqueness_group : Option DefKey
  slots : List (DefKey × List Slot)
  xtriggers : List Xtrigger

/-- Rust `struct Deck` (src/mothlib/lantern/mod.rs lines 210-244). -/
structure Deck where
  id : DefKey
  label : String
  description : String
  default : Option DefKey
  cards : List (DefKey × Option String)
  is_portal_deck : Bool

/-- Rust `struct Verb` (src/mothlib/lantern/mod.rs lines 597-615). -/
structure Verb where
  id : DefKey
  label : String
  description : String
  slot : Option Slot

/-- Rust `enum EndingMusicKind` (src/mothlib/lantern/mod.rs lines 668-672). -/
inductive EndingMusicKind where
  | Grand
  | Melancholy
  | Vile
  deriving DecidableEq, Repr

/-- Rust `enum EndingAnimationKind` (src/mothlib/lantern/mod.rs lines
677-681). -/
inductive EndingAnimationKind where
  | DramaticLight
  | DramaticLightCool
  | DramaticLightEvil
  deriving DecidableEq, Repr

/-- Rust `struct Ending` (src/mothlib/lantern/mod.rs lines 688-708). -/
structure Ending where
  id : DefKey
  label : String
  description : String
  image : String
  music : EndingMusicKind
  animation : EndingAnimationKind
  achievement : String

/-- Modelled from the spec: the recipe parser (`mod recipe;`,
src/crucible/parser/recipe.rs) is absent from src/.  Spec §4.4: a component
parser reads `<kind> <id> <title> [<description>]` and a brace-delimited
statement block.  No claim inspects a Recipe, so the payload keeps the
signature fields and the raw body text. -/
structure Recipe where
  id : DefKey
  label : String
  description : String
  body : List Char

/-- Modelled from the spec: the legacy parser (`mod legacy;`,
src/crucible/parser/legacy.rs) is absent from src/; same shape as the
modelled recipe parser. -/
structure Legacy where
  id : DefKey
  label : String
  description : String
  body : List Char

/-- Rust `enum Component` (src/crucible/parser/mod.rs lines 199-208). -/
inductive Component where
  | Aspect (a : Aspect)
  | Card (c : Card)
  | Deck (d : Deck)
  | Recipe (r : Recipe)
  | Verb (v : Verb)
  | Legacy (l : Legacy)
  | Ending (e : Ending)

/-- `Component::id` (src/crucible/parser/mod.rs lines 210-222). -/
def Component.id : Component → DefKey
  | .Aspect a => a.id
  | .Card c => c.id
  | .Deck d => d.id
  | .Recipe r => r.id
  | .Verb v => v.id
  | .Legacy l => l.id
  | .Ending e => e.id

/-- `HashMap::insert`: returns the previous value for the key, if any,
together with the updated map (embedded as an association list). -/
def insertA {V : Type} : List (DefKey × V) → DefKey → V → Option V × List (DefKey × V)
  | [], k, v => (none, [(k, v)])
  | (k', v') :: rest, k, v =>
    if k' = k then (some v', (k, v) :: rest)
    else
      let (old, rest') := insertA rest k v
      (old, (k', v') :: rest')

/-- The local `enum AspectStatement` (src/crucible/parser/aspect.rs lines
45-49). -/
inductive AspectStatement where
  | Set (k : DefKey) (v : Value)
  | Induce (k : DefKey) (c : Probability)
  | Xtrig (x : Xtrigger)

/-- `fn set` inside `aspect_statement` (src/crucible/parser/aspect.rs lines
52-61). -/
def aspectSet : Parser AspectStatement := do
  let _ ← ws (tagNoCase "set")
  let k ← ws defkey
  let _ ← charP '='
  let v ← ws jsonParse
  pure (.Set k v)

/-- `fn induce` inside `aspect_statement` (src/crucible/parser/aspect.rs
lines 63-71). -/
def aspectInduce : Parser AspectStatement := do
  let _ ← ws (tagNoCase "induce")
  let k ← ws defkey
  let c ← ws chanceP
  pure (.Induce k c)

/-- `fn xtrigger` inside `aspect_statement` (src/crucible/parser/aspect.rs
lines 73-76). -/
def aspectXtrig : Parser AspectStatement := do
  let x ← xtrigger
  pure (.Xtrig x)

/-- `fn aspect_statement` (src/crucible/parser/aspect.rs lines 51-83). -/
def aspect_statement : Parser AspectStatement :=
  alt2 (ws aspectSet) <| alt2 (ws aspectInduce) (ws aspectXtrig)

/-- `fn aspect_decays` (src/crucible/parser/aspect.rs lines 41-44). -/
def aspectDecays : Parser DefKey := do
  let _ ← ws (tagP "->")
  ws defkey

/-- The statement fold of `aspect_from_tokens` (src/crucible/parser/aspect.rs
lines 96-140); the `todo!()` panic sites become `SemErr` values.  Returns
the accumulated `(icon, verbicon, induces, xtriggers, others)`. -/
def aspectLoop (icon verbicon : Option String)
    (induces : Option (DefKey × Probability)) (xtriggers : List Xtrigger)
    (others : List (DefKey × Value)) :
    List AspectStatement →
    Except SemErr (Option String × Option String ×
      Option (DefKey × Probability) × List Xtrigger × List (DefKey × Value))
  | [] => .ok (icon, verbicon, induces, xtriggers, others)
  | .Set k v :: rest =>
    if k.s = "id" ∨ k.s = "label" ∨ k.s = "description" then
      .error .signatureOnlyField
    else if k.s = "icon" then
      match icon with
      | some _ => .error .duplicateAssignment
      | none =>
        match v with
        | .Str s => aspectLoop (some s) verbicon induces xtriggers others rest
        | _ => .error .typeMismatch
    else if k.s = "verbicon" then
      match verbicon with
      | some _ => .error .duplicateAssignment
      | none =>
        match v with
        | .Str s => aspectLoop icon (some s) induces xtriggers others rest
        | _ => .error .typeMismatch
    else
      match insertA others k v with
      | (some _, _) => .error .duplicateAssignment
      | (none, others') => aspectLoop icon verbicon induces xtriggers others' rest
  | .Induce key chance :: rest =>
    (match induces with
     | none => aspectLoop icon verbicon (some (key, chance)) xtriggers others rest
     | some _ => .error .duplicateInduce)
  | .Xtrig x :: rest =>
    aspectLoop icon verbicon induces (xtriggers ++ [x]) others rest

/-- `fn aspect_from_tokens` (src/crucible/parser/aspect.rs lines 85-143). -/
def aspect_from_tokens (id : DefKey) (title desc : String) (hidden : Bool)
    (decays_to : Option DefKey) (statements : List AspectStatement) :
    Except SemErr Aspect :=
  match aspectLoop none none none [] [] statements with
  | .error e => .error e
  | .ok (icon, verbicon, induces, xtriggers, others) =>
    .ok ⟨id, title, desc, icon, verbicon, induces, decays_to, hidden,
         xtriggers, others⟩

/-- `aspect::parse` (src/crucible/parser/aspect.rs lines 23-39). -/
def aspectParse : Parser Component := fun i =>
  (do
    let hidden ← optP (ws hiddenP)
    let _ ← ws (tagNoCase "aspect")
    let id ← ws defkey
    let title ← ws stringParse
    let desc ← ws stringParse
    let decays ← optP (ws aspectDecays)
    let _ ← ws (tagP "\x7b")
    let statements ← sepList0 lineEnding (ws aspect_statement)
    let _ ← ws (tagP "\x7d")
    (fun j =>
      match aspect_from_tokens id title desc hidden.isSome decays statements with
      | .ok a => .ok j (Component.Aspect a)
      | .error e => .fail j (.sem e) : Parser Component)) i

/-- The local `enum CardStatement` (src/crucible/parser/card.rs lines
56-62). -/
inductive CardStatement where
  | Set (k : DefKey) (v : Value)
  | Induce (k : DefKey) (c : Probability)
  | Unique (group : Option DefKey)
  | SlotSt (verb : DefKey) (s : Slot)
  | Xtrig (x : Xtrigger)

/-- `fn set` inside `card_statement` (src/crucible/parser/card.rs lines
65-72). -/
def cardSet : Parser CardStatement := do
  let _ ← ws (tagNoCase "set")
  let k ← ws defkey
  let _ ← charP '='
  let v ← ws jsonParse
  pure (.Set k v)

/-- `fn induce` inside `card_statement` (src/crucible/parser/card.rs lines
74-79). -/
def cardInduce : Parser CardStatement := do
  let _ ← ws (tagNoCase "induce")
  let k ← ws defkey
  let c ← ws chanceP
  pure (.Induce k c)

/-- `fn unique` inside `card_statement` (src/crucible/parser/card.rs lines
81-85). -/
def cardUnique : Parser CardStatement := do
  let _ ← ws (tagNoCase "unique")
  let g ← optP (ws defkey)
  pure (.Unique g)

/-- `fn card_slot` inside `card_statement` (src/crucible/parser/card.rs
lines 92-96): `<verb> -> <slot-def>`. -/
def cardSlot : Parser CardStatement := do
  let verb ← defkey
  let _ ← ws (tagP "->")
  let s ← slotP
  pure (.SlotSt verb s)

/-- `fn xtrigger` inside `card_statement` (src/crucible/parser/card.rs
lines 87-90). -/
def cardXtrig : Parser CardStatement := do
  let x ← xtrigger
  pure (.Xtrig x)

/-- `fn card_statement` (src/crucible/parser/card.rs lines 64-99). -/
def card_statement : Parser CardStatement :=
  alt2 (ws cardSet) <| alt2 (ws cardInduce) <| alt2 (ws cardUnique) <|
  alt2 (ws cardSlot) (ws cardXtrig)

/-- `fn card_decays` (src/crucible/parser/card.rs lines 51-55). -/
def cardDecays : Parser (Option DefKey × Option Nat) := do
  let _ ← ws (tagP "->")
  let key ← optP (ws defkey)
  let lifetime ← optP (ws u32P)
  pure (key, lifetime)

/-- `fn card_aspect` inside `card_aspects` (src/crucible/parser/card.rs
lines 102-107): the bare-defkey alternative (amount defaulting to 1 via
`success`) is listed before the `defkey : u32` alternative, exactly as in
the source. -/
def cardAspect : Parser (DefKey × Nat) :=
  alt2 (pairP (ws defkey) (successP 1))
    (do
      let k ← ws defkey
      let _ ← ws (charP ':')
      let n ← ws u32P
      pure (k, n))

/-- The duplicate-detecting map build of `card_aspects`
(src/crucible/parser/card.rs lines 115-124); a duplicate key is the
`todo!("Duplicate aspect assignment…")` panic. -/
def cardAspectsLoop : List (DefKey × Nat) → List (DefKey × Nat) →
    Except SemErr (List (DefKey × Nat))
  | m, [] => .ok m
  | m, (k, v) :: rest =>
    match insertA m k v with
    | (some _, _) => .error .duplicateAspect
    | (none, m') => cardAspectsLoop m' rest

/-- `fn card_aspects` (src/crucible/parser/card.rs lines 101-127). -/
def card_aspects : Parser (List (DefKey × Nat)) := fun i =>
  (do
    let _ ← ws (charP '(')
    let aspects ← sepList0 (ws (charP ',')) (ws cardAspect)
    let _ ← ws (charP ')')
    (fun j =>
      match cardAspectsLoop [] aspects with
      | .ok m => .ok j m
      | .error e => .fail j (.sem e) : Parser (List (DefKey × Nat)))) i

/-- Mutable accumulator of `card_from_tokens`
(src/crucible/parser/card.rs lines 140-152). -/
structure CardFold where
  resaturate : Bool
  icon : Option String
  verbicon : Option String
  induces : Option (DefKey × Probability)
  unique : Option Bool
  uniqueness_group : Option DefKey
  slots : List (DefKey × List Slot)
  xtriggers : List Xtrigger
  others : List (DefKey × Value)

/-- `slots.get_mut(&verb)` push-or-insert of `card_from_tokens`
(src/crucible/parser/card.rs lines 225-234). -/
def updateSlots : List (DefKey × List Slot) → DefKey → Slot →
    List (DefKey × List Slot)
  | [], k, s => [(k, [s])]
  | (k', l) :: rest, k, s =>
    if k' = k then (k', l ++ [s]) :: rest
    else (k', l) :: updateSlots rest k s

/-- The statement fold of `card_from_tokens` (src/crucible/parser/card.rs
lines 154-244).  The `"resaturate"` arm is embedded exactly as in the
source: its duplicate check inspects the `verbicon` accumulator, not a
resaturate-specific one, and the `resaturate` bool is overwritten without
any duplicate tracking. -/
def cardLoop (st : CardFold) : List CardStatement → Except SemErr CardFold
  | [] => .ok st
  | .Set k v :: rest =>
    if k.s = "id" ∨ k.s = "label" ∨ k.s = "description" then
      .error .signatureOnlyField
    else if k.s = "icon" then
      match st.icon with
      | some _ => .error .duplicateAssignment
      | none =>
        match v with
        | .Str s => cardLoop { st with icon := some s } rest
        | _ => .error .typeMismatch
    else if k.s = "verbicon" then
      match st.verbicon with
      | some _ => .error .duplicateAssignment
      | none =>
        match v with
        | .Str s => cardLoop { st with verbicon := some s } rest
        | _ => .error .typeMismatch
    else if k.s = "resaturate" then
      match st.verbicon with
      | some _ => .error .duplicateAssignment
      | none =>
        match v with
        | .Boolean b => cardLoop { st with resaturate := b } rest
        | _ => .error .typeMismatch
    else
      match insertA st.others k v with
      | (some _, _) => .error .duplicateAssignment
      | (none, o') => cardLoop { st with others := o' } rest
  | .Unique (some g) :: rest =>
    (match st.uniqueness_group with
     | none => cardLoop { st with uniqueness_group := some g } rest
     | some _ => .error .duplicateUniqueGroup)
  | .Unique none :: rest =>
    (match st.unique with
     | none => cardLoop { st with unique := some true } rest
     | some _ => .error .duplicateUnique)
  | .SlotSt verb s :: rest =>
    cardLoop { st with slots := updateSlots st.slots verb s } rest
  | .Induce key chance :: rest =>
    (match st.induces with
     | none => cardLoop { st with induces := some (key, chance) } rest
     | some _ => .error .duplicateInduce)
  | .Xtrig x :: rest =>
    cardLoop { st with xtriggers := st.xtriggers ++ [x] } rest

/-- `fn card_from_tokens` (src/crucible/parser/card.rs lines 130-265). -/
def card_from_tokens (id : DefKey) (title desc : String) (hidden : Bool)
    (decays_to : Option DefKey) (lifetime : Option Nat)
    (aspects : List (DefKey × Nat)) (statements : List CardStatement) :
    Except SemErr Card :=
  match cardLoop ⟨false, none, none, none, none, none, [], [], []⟩ statements with
  | .error e => .error e
  | .ok st =>
    .ok ⟨id, title, desc, st.icon, st.verbicon, st.induces, decays_to,
         hidden, aspects, lifetime, st.resaturate, st.unique.getD false,
         st.uniqueness_group, st.slots, st.xtriggers⟩

/-- `card::parse` (src/crucible/parser/card.rs lines 17-49). -/
def cardParse : Parser Component := fun i =>
  (do
    let hidden ← optP (ws hiddenP)
    let _ ← ws (tagNoCase "card")
    let id ← ws defkey
    let title ← ws stringParse
    let desc ← optP (ws stringParse)
    let aspects ← ws card_aspects
    let dl ← optP (ws cardDecays)
    let _ ← ws (tagP "\x7b")
    let statements ← sepList0 lineEnding (ws card_statement)
    let _ ← ws (tagP "\x7d")
    (fun j =>
      let desc' := desc.getD ""
      let dl' := dl.getD (none, none)
      match card_from_tokens id title desc' hidden.isSome dl'.1 dl'.2
          aspects statements with
      | .ok c => .ok j (Component.Card c)
      | .error e => .fail j (.sem e) : Parser Component)) i

/-- `fn deck_item` (src/crucible/parser/deck.rs lines 40-53): an optional
`!`/`default` marker, the card id, and an optional whitespace-separated
description; returns `(is_default, card, desc)`. -/
def deck_item : Parser (Bool × DefKey × Option String) := do
  let isDefault ← optP (alt2 (tagP "!") (tagNoCase "default"))
  let id ← defkey
  let desc ← optP (pairP multispace1 stringParse)
  pure (isDefault.isSome, id, desc.map (·.2))

/-- The content fold of `deck_from_tokens` (src/crucible/parser/deck.rs
lines 61-76): a second `default` entry is the
`todo!("Cannot set more than one default card in a deck")` panic; any
description turns the portal flag on; every entry is pushed onto `cards`. -/
def deckLoop (dflt : Option DefKey) (cards : List (DefKey × Option String))
    (portal : Bool) :
    List (Bool × DefKey × Option String) →
    Except SemErr (Option DefKey × List (DefKey × Option String) × Bool)
  | [] => .ok (dflt, cards, portal)
  | (isDefault, card, desc) :: rest =>
    if isDefault then
      match dflt with
      | some _ => .error .duplicateDefault
      | none =>
        deckLoop (some card) (cards ++ [(card, desc)])
          (portal || desc.isSome) rest
    else
      deckLoop dflt (cards ++ [(card, desc)]) (portal || desc.isSome) rest

/-- `fn deck_from_tokens` (src/crucible/parser/deck.rs lines 55-82). -/
def deck_from_tokens (id : DefKey) (label description : Option String)
    (contents : List (Bool × DefKey × Option String)) : Except SemErr Deck :=
  match deckLoop none [] false contents with
  | .error e => .error e
  | .ok (dflt, cards, portal) =>
    .ok ⟨id, label.getD "", description.getD "", dflt, cards, portal⟩

/-- `deck::parse` (src/crucible/parser/deck.rs lines 17-31). -/
def deckParse : Parser Component := fun i =>
  (do
    let _ ← ws (tagNoCase "deck")
    let id ← ws defkey
    let label ← optP (ws stringParse)
    let description ← optP (ws stringParse)
    let _ ← ws (charP '{')
    let contents ← sepList0 lineEnding (ws deck_item)
    let _ ← ws (charP '}')
    (fun j =>
      match deck_from_tokens id label description contents with
      | .ok d => .ok j (Component.Deck d)
      | .error e => .fail j (.sem e) : Parser Component)) i

/-- `verb::parse` (src/crucible/parser/verb.rs lines 22-36). -/
def verbParse : Parser Component := do
  let _ ← ws (tagNoCase "verb")
  let id ← ws defkey
  let label ← ws stringParse
  let description ← ws stringParse
  let slot ← optP (do
    let _ ← ws (charP '(')
    let s ← ws slotP
    let _ ← ws (charP ')')
    pure s)
  pure (.Verb ⟨id, label, description, slot⟩)

/-- `HashMap::remove` for the literal object of `ending::parse`: the value
for the key, if present, and the object without it. -/
def removeA : List (String × Value) → String → Option Value × List (String × Value)
  | [], _ => (none, [])
  | (k', v) :: rest, k =>
    if k' = k then (some v, rest)
    else
      let (o, r) := removeA rest k
      (o, (k', v) :: r)

/-- Key extraction of `ending::parse` (src/crucible/parser/ending.rs lines
26-83): the content must be an object; `image` is required and must be a
string; `flavour` maps case-insensitively to the music kind (default
Grand); `anim` maps to the animation kind (default DramaticLight, and the
source's accepted spelling `dramagiclightcool` is kept verbatim);
`achievementid` defaults to `"XXX"`.  Each `todo!()` panic is a `SemErr`. -/
def endingFromContent (id : DefKey) (label description : String)
    (content : Value) : Except SemErr Ending :=
  match content with
  | .Object o =>
    let (imgv, o1) := removeA o "image"
    (match imgv with
     | none => .error .missingRequiredKey
     | some (.Str image) =>
       let (flav, o2) := removeA o1 "flavour"
       let musicE : Except SemErr EndingMusicKind :=
         match flav with
         | none => .ok .Grand
         | some (.Str s) =>
           if s.toLower = "grand" then .ok .Grand
           else if s.toLower = "melancholy" then .ok .Melancholy
           else if s.toLower = "vile" then .ok .Vile
           else .error .invalidEnumValue
         | some _ => .error .typeMismatch
       (match musicE with
        | .error e => .error e
        | .ok music =>
          let (animv, o3) := removeA o2 "anim"
          let animE : Except SemErr EndingAnimationKind :=
            match animv with
            | none => .ok .DramaticLight
            | some (.Str s) =>
              if s.toLower = "dramaticlight" then .ok .DramaticLight
              else if s.toLower = "dramagiclightcool" then .ok .DramaticLightCool
              else if s.toLower = "dramaticlightevil" then .ok .DramaticLightEvil
              else .error .invalidEnumValue
            | some _ => .error .typeMismatch
          (match animE with
           | .error e => .error e
           | .ok animation =>
             let (achv, _) := removeA o3 "achievementid"
             match achv with
             | none => .ok ⟨id, label, description, image, music, animation, "XXX"⟩
             | some (.Str s) =>
               .ok ⟨id, label, description, image, music, animation, s⟩
             | some _ => .error .typeMismatch))
     | some _ => .error .typeMismatch)
  | _ => .error .notAnObject

/-- `ending::parse` (src/crucible/parser/ending.rs lines 17-99). -/
def endingParse : Parser Component := fun i =>
  (do
    let _ ← ws (tagNoCase "ending")
    let id ← ws defkey
    let label ← ws stringParse
    let description ← ws stringParse
    let content ← ws jsonParse
    (fun j =>
      match endingFromContent id label description content with
      | .ok e => .ok j (Component.Ending e)
      | .error e => .fail j (.sem e) : Parser Component)) i

/-- Modelled from the spec: the absent recipe parser
(src/crucible/parser/recipe.rs), as a structurally-analogous component
parser — keyword signature then brace-delimited block (spec §4.4). -/
def recipeParse : Parser Component := do
  let _ ← ws (tagNoCase "recipe")
  let id ← ws defkey
  let label ← ws stringParse
  let description ← ws stringParse
  let _ ← ws (tagP "\x7b")
  let body ← takeUntilP "\x7d"
  let _ ← tagP "\x7d"
  pure (.Recipe ⟨id, label, description, body⟩)

/-- Modelled from the spec: the absent legacy parser
(src/crucible/parser/legacy.rs), same shape as the modelled recipe
parser. -/
def legacyParse : Parser Component := do
  let _ ← ws (tagNoCase "legacy")
  let id ← ws defkey
  let label ← ws stringParse
  let description ← ws stringParse
  let _ ← ws (tagP "\x7b")
  let body ← takeUntilP "\x7d"
  let _ ← tagP "\x7d"
  pure (.Legacy ⟨id, label, description, body⟩)

/-- Rust `enum Unit` (src/crucible/parser/mod.rs lines 176-180); the
`Component` variant is spelled `Comp` here to avoid clashing with the
`Component` type. -/
inductive SrcUnit where
  | Namespace (id : DefKey) (attrs : List Attribute) (units : List SrcUnit)
  | Comp (id : DefKey) (attrs : List Attribute) (component : Component)
      (inherits : Option DefKey)

/-- `fn component_inner` inside `fn component` (src/crucible/parser/mod.rs
lines 225-235): the seven component parsers in source order. -/
def componentInner : Parser Component :=
  alt2 aspectParse <| alt2 cardParse <| alt2 deckParse <| alt2 recipeParse <|
  alt2 verbParse <| alt2 legacyParse endingParse

/-- `fn inherit` (src/crucible/parser/mod.rs lines 244-247):
`from <defkey>`. -/
def inheritP : Parser DefKey := do
  let _ ← ws (tagNoCase "from")
  ws defkey

/-- `fn component` (src/crucible/parser/mod.rs lines 224-242). -/
def componentP : Parser SrcUnit := do
  let attrs ← many0 (ws localAttr)
  let inherits ← optP (ws inheritP)
  let c ← ws componentInner
  pure (.Comp c.id attrs c inherits)

/-- `fn namespace` (src/crucible/parser/mod.rs lines 186-197), with the
recursive `unit` parser passed in. -/
def namespaceP (unitp : Parser SrcUnit) : Parser SrcUnit := do
  let attrs ← many0 (ws localAttr)
  let _ ← ws (tagNoCase "namespace")
  let id ← ws defkey
  let _ ← ws (charP '{')
  let units ← many0 (ws unitp)
  let _ ← ws (charP '}')
  pure (.Namespace id attrs units)

/-- `fn unit` (src/crucible/parser/mod.rs lines 182-184); the fuel bounds
the namespace nesting depth and is instantiated with `input.length + 1`,
which the strictly-consuming `namespace` grammar can never exhaust. -/
def unitP : Nat → Parser SrcUnit
  | 0 => fun i => .err i .altK
  | fuel + 1 => alt2 (namespaceP (unitP fuel)) componentP

/-- Rust `struct Crucible` (src/crucible/parser/mod.rs lines 74-78). -/
structure Crucible where
  attributes : List Attribute
  units : List SrcUnit

/-- The `separated_pair` body of `fn crucible`
(src/crucible/parser/mod.rs lines 108-114). -/
def crucibleInner (fuel : Nat) : Parser (List Attribute × List SrcUnit) := do
  let attrs ← sepList0 multispace0 globalAttr
  multispace0
  let units ← sepList0 multispace0 (unitP fuel)
  pure (attrs, units)

/-- `fn crucible` (src/crucible/parser/mod.rs lines 107-127): runs the
attribute and unit lists, then demands an empty remainder — anything left
is the `nomfail!(Error::new(input, ErrorKind::NonEmpty))` fatal failure,
carrying the whole input. -/
def crucible (input : String) : PResult Crucible :=
  match crucibleInner (input.toList.length + 1) input.toList with
  | .ok remainder (attrs, units) =>
    if remainder.isEmpty then .ok remainder ⟨attrs, units⟩
    else .fail input.toList .nonEmpty
  | .err j c => .err j c
  | .fail j c => .fail j c

/-- Number of default-marked entries in a deck content list. -/
def countDefaults : List (Bool × DefKey × Option String) → Nat
  | [] => 0
  | (b, _, _) :: rest => (if b then 1 else 0) + countDefaults rest

/-- With a default already recorded, any further default-marked entry makes
the deck fold fail with the duplicate-default panic. -/
lemma deckLoop_dup_some (contents : List (Bool × DefKey × Option String)) :
    ∀ (x : DefKey) (cards : List (DefKey × Option String)) (portal : Bool),
    1 ≤ countDefaults contents →
    deckLoop (some x) cards portal contents = .error .duplicateDefault := by
  induction contents with
  | nil => intro x cards portal h; simp [countDefaults] at h
  | cons head tail ih =>
    intro x cards portal h
    obtain ⟨b, c, d⟩ := head
    by_cases hb : b
    · subst hb; simp [deckLoop]
    · simp only [Bool.not_eq_true] at hb
      subst hb
      simp only [countDefaults, if_neg Bool.false_ne_true, Nat.zero_add] at h
      simp only [deckLoop, if_neg Bool.false_ne_true]
      exact ih x _ _ h

/-- Two default-marked entries always make the deck fold fail with the
duplicate-default panic, whatever the accumulator state. -/
lemma deckLoop_dup_two (contents : List (Bool × DefKey × Option String)) :
    ∀ (dflt : Option DefKey) (cards : List (DefKey × Option String))
      (portal : Bool),
    2 ≤ countDefaults contents →
    deckLoop dflt cards portal contents = .error .duplicateDefault := by
  induction contents with
  | nil => intro dflt cards portal h; simp [countDefaults] at h
  | cons head tail ih =>
    intro dflt cards portal h
    obtain ⟨b, c, d⟩ := head
    cases dflt with
    | some x =>
      exact deckLoop_dup_some ((b, c, d) :: tail) x cards portal (by omega)
    | none =>
      by_cases hb : b
      · subst hb
        simp only [deckLoop, if_pos rfl]
        apply deckLoop_dup_some
        simp [countDefaults] at h
        omega
      · simp only [Bool.not_eq_true] at hb
        subst hb
        simp only [countDefaults, if_neg Bool.false_ne_true, Nat.zero_add] at h
        simp only [deckLoop, if_neg Bool.false_ne_true]
        exact ih none _ _ h

/-- When no entry carries a description and at most one default is left to
process (none at all if one is already recorded), the deck fold succeeds
and leaves the portal flag unchanged. -/
lemma deckLoop_ok_nodesc (contents : List (Bool × DefKey × Option String)) :
    ∀ (dflt : Option DefKey) (cards : List (DefKey × Option String))
      (portal : Bool),
    (∀ e ∈ contents, e.2.2 = none) →
    (dflt = none → countDefaults contents ≤ 1) →
    (∀ x, dflt = some x → countDefaults contents = 0) →
    ∃ d' c', deckLoop dflt cards portal contents = .ok (d', c', portal) := by
  induction contents with
  | nil => intro dflt cards portal _ _ _; exact ⟨dflt, cards, rfl⟩
  | cons head tail ih =>
    intro dflt cards portal hdesc hle hzero
    obtain ⟨b, c, d⟩ := head
    have hd : d = none := hdesc (b, c, d) (List.mem_cons_self _ _)
    subst hd
    by_cases hb : b
    · subst hb
      cases dflt with
      | some x =>
        have := hzero x rfl
        simp [countDefaults] at this
      | none =>
        simp only [deckLoop, if_pos rfl]
        have htail : countDefaults tail = 0 := by
          have := hle rfl
          simp [countDefaults] at this
          omega
        have := ih (some c) (cards ++ [(c, none)]) (portal || false)
          (fun e he => hdesc e (List.mem_cons_of_mem _ he))
          (fun hx => by cases hx)
          (fun x _ => htail)
        simpa using this
    · simp only [Bool.not_eq_true] at hb
      subst hb
      simp only [deckLoop, if_neg Bool.false_ne_true]
      have := ih dflt (cards ++ [(c, none)]) (portal || false)
        (fun e he => hdesc e (List.mem_cons_of_mem _ he))
        (fun hx => by
          have := hle hx
          simp only [countDefaults, if_neg Bool.false_ne_true, Nat.zero_add] at this
          exact this)
        (fun x hx => by
          have := hzero x hx
          simp only [countDefaults, if_neg Bool.false_ne_true, Nat.zero_add] at this
          exact this)
      simpa using this

/-- Once the portal flag is on — or some remaining entry carries a
description — a successful deck fold reports a portal deck. -/
lemma deckLoop_portal (contents : List (Bool × DefKey × Option String)) :
    ∀ (dflt : Option DefKey) (cards : List (DefKey × Option String))
      (portal : Bool) (out : Option DefKey × List (DefKey × Option String) × Bool),
    deckLoop dflt cards portal contents = .ok out →
    (portal = true ∨ ∃ e ∈ contents, e.2.2.isSome) →
    out.2.2 = true := by
  induction contents with
  | nil =>
    intro dflt cards portal out heq hyp
    cases heq
    rcases hyp with h | ⟨e, he, _⟩
    · exact h
    · cases he
  | cons head tail ih =>
    intro dflt cards portal out heq hyp
    obtain ⟨b, c, d⟩ := head
    have hnext : ((portal || d.isSome) = true ∨ ∃ e ∈ tail, e.2.2.isSome) := by
      rcases hyp with h | ⟨e, he, hsome⟩
      · left; simp [h]
      · rcases List.mem_cons.mp he with rfl | htail
        · left; simp [hsome]
        · right; exact ⟨e, htail, hsome⟩
    by_cases hb : b
    · subst hb
      cases dflt with
      | some x => simp [deckLoop] at heq
      | none =>
        simp only [deckLoop, if_pos rfl] at heq
        exact ih _ _ _ _ heq hnext
    · simp only [Bool.not_eq_true] at hb
      subst hb
      simp only [deckLoop, if_neg Bool.false_ne_true] at heq
      exact ih _ _ _ _ heq hnext

/-- C1: the spec says a slot filter entry beginning with `!` parses to
`SlotFilter::Forbid` and one without to `SlotFilter::Accept`; the source's
`slotfilter` swaps the two constructors — `!fire:2` evaluates to `Accept`
and `fire:2` to `Forbid`. -/
theorem slotfilter_bang_maps_to_Accept :
    slotfilter ("!fire:2".toList) = .ok [] (.Accept ⟨"fire"⟩ 2)
    ∧ slotfilter ("fire:2".toList) = .ok [] (.Forbid ⟨"fire"⟩ 2) :=
  ⟨rfl, rfl⟩

/-- C2: the xtrigger reaction alternatives are tried in the order spawn,
mutate, explicit-transform, bare-transform with the first syntactic match
winning, chance defaults to 100% whenever omitted and the bare form's
amount defaults to 1: `xtrigger cat -> spawn target:3 50%` parses to
Spawn(cat, target, 3, 50), `xtrigger cat -> target` to
Transform(cat, target, 1, 100), with the mutate and explicit-transform
forms also defaulting their chance to 100. -/
theorem xtrigger_alternatives_and_defaults :
    xtrigger ("xtrigger cat -> spawn target:3 50%".toList)
      = .ok [] (.Spawn ⟨"cat"⟩ ⟨"target"⟩ 3 ⟨50⟩)
    ∧ xtrigger ("xtrigger cat -> target".toList)
      = .ok [] (.Transform ⟨"cat"⟩ ⟨"target"⟩ 1 ⟨100⟩)
    ∧ xtrigger ("xtrigger cat -> mutate x:-2".toList)
      = .ok [] (.Mutate ⟨"cat"⟩ ⟨"x"⟩ (-2) ⟨100⟩)
    ∧ xtrigger ("xtrigger cat -> tgt:2".toList)
      = .ok [] (.Transform ⟨"cat"⟩ ⟨"tgt"⟩ 2 ⟨100⟩) :=
  ⟨rfl, rfl, rfl, rfl⟩

/-- C3: for every integer in the `u8` domain, `Probability::new` succeeds
and round-trips through `u8` exactly when the value is at most 100, and
fails with the invalid-probability error otherwise. -/
theorem probability_new_roundtrip (p : Nat) (hp : p < 256) :
    (p ≤ 100 → ∃ q, Probability.new p = .ok q ∧ probToU8 q = p)
    ∧ (100 < p → Probability.new p
        = .error "a probability value must be an integer in the range 0..=100") := by
  constructor
  · intro hle
    exact ⟨⟨p⟩, by simp [Probability.new, hle], rfl⟩
  · intro hgt
    simp [Probability.new, Nat.not_le.mpr hgt]

/-- Witness for C3 at the concrete values 42 (accepted and round-tripped)
and 200 (rejected). -/
theorem probability_new_roundtrip_witness :
    (∃ q, Probability.new 42 = .ok q ∧ probToU8 q = 42)
    ∧ Probability.new 200
      = .error "a probability value must be an integer in the range 0..=100" :=
  ⟨(probability_new_roundtrip 42 (by decide)).1 (by decide),
   (probability_new_roundtrip 200 (by decide)).2 (by decide)⟩

/-- C4: the spec says a second `set` of an already-assigned field always
fails with a duplicate-assignment error for every routed key, including
Card `resaturate`.  The source enforces this for `icon`, `verbicon` and
the `others` bag, but the `resaturate` arm's duplicate check inspects the
`verbicon` accumulator: two `set resaturate` statements succeed and the
second silently wins (here the final Card carries `resaturate = false`). -/
theorem card_resaturate_duplicate_set_silently_overwrites :
    card_from_tokens ⟨"x"⟩ "X" "" false none none []
        [.Set ⟨"resaturate"⟩ (.Boolean true), .Set ⟨"resaturate"⟩ (.Boolean false)]
      = .ok ⟨⟨"x"⟩, "X", "", none, none, none, none, false, [], none, false,
             false, none, [], []⟩
    ∧ aspect_from_tokens ⟨"a"⟩ "A" "D" false none
        [.Set ⟨"icon"⟩ (.Str "a.png"), .Set ⟨"icon"⟩ (.Str "b.png")]
      = .error .duplicateAssignment
    ∧ card_from_tokens ⟨"x"⟩ "X" "" false none none []
        [.Set ⟨"zz"⟩ .Null, .Set ⟨"zz"⟩ .Null]
      = .error .duplicateAssignment :=
  ⟨rfl, rfl, rfl⟩

/-- C5: the spec says `consume`/`!` sets `consumes` and `greedy`/`?` sets
`greedy`, each modifier usable alone in either spelling.  In the source's
`slotkind` the single-modifier alternatives bind the consumed token to the
wrong tuple slot, so a lone `!` (or lone `consume`) produces
`consumes = false, greedy = false`; only the two-modifier forms work. -/
theorem slot_single_capacity_modifier_ignored :
    slotP ("! slot s \"l\" \"d\"".toList)
      = .ok [] ⟨⟨"s"⟩, "l", "d", false, false, []⟩
    ∧ slotP ("consume slot s \"l\" \"d\"".toList)
      = .ok [] ⟨⟨"s"⟩, "l", "d", false, false, []⟩
    ∧ slotP ("! ? slot s \"l\" \"d\"".toList)
      = .ok [] ⟨⟨"s"⟩, "l", "d", true, true, []⟩ :=
  ⟨rfl, rfl, rfl⟩

/-- C6: the spec says line and block comments between tokens are discarded
without changing the parse.  The source defines `comment` and
`block_comment` parsers (they do recognize comment text), but no other
parser ever invokes them and `ws` strips only whitespace, so inserting
`// note` between the `xtrigger` keyword and its catalyst turns a
successful parse into a syntax error. -/
theorem comment_between_tokens_breaks_parse :
    comment ("// note".toList) = .ok [] ()
    ∧ block_comment ("(* note *)".toList) = .ok [] ()
    ∧ xtrigger ("xtrigger cat -> dog".toList)
      = .ok [] (.Transform ⟨"cat"⟩ ⟨"dog"⟩ 1 ⟨100⟩)
    ∧ xtrigger ("xtrigger // note\ncat -> dog".toList)
      = .err ("// note\ncat -> dog".toList) .takeWhile1K :=
  ⟨rfl, rfl, rfl, rfl⟩

/-- C7: a deck body with two default-marked entries fails with the
duplicate-default error; exactly one default and no per-card descriptions
yields a deck with `is_portal_deck = false`; and any entry carrying a
description forces `is_portal_deck = true`. -/
theorem deck_default_and_portal (id : DefKey) (label description : Option String)
    (contents : List (Bool × DefKey × Option String)) :
    (2 ≤ countDefaults contents →
      deck_from_tokens id label description contents = .error .duplicateDefault)
    ∧ (countDefaults contents = 1 ∧ (∀ e ∈ contents, e.2.2 = none) →
      ∃ d, deck_from_tokens id label description contents = .ok d
        ∧ d.is_portal_deck = false)
    ∧ (∀ d, (∃ e ∈ contents, e.2.2.isSome) →
      deck_from_tokens id label description contents = .ok d →
        d.is_portal_deck = true) := by
  refine ⟨?_, ?_, ?_⟩
  · intro h
    unfold deck_from_tokens
    rw [deckLoop_dup_two contents none [] false h]
  · rintro ⟨h1, h2⟩
    obtain ⟨d', c', heq⟩ := deckLoop_ok_nodesc contents none [] false h2
      (fun _ => by omega) (fun x hx => by cases hx)
    exact ⟨⟨id, label.getD "", description.getD "", d', c', false⟩,
      by unfold deck_from_tokens; rw [heq], rfl⟩
  · intro d hex heq
    unfold deck_from_tokens at heq
    cases hdl : deckLoop none [] false contents with
    | error e => rw [hdl] at heq; cases heq
    | ok out =>
      rw [hdl] at heq
      obtain ⟨d', c', p⟩ := out
      have hp := deckLoop_portal contents none [] false (d', c', p) hdl (Or.inr hex)
      cases heq
      simpa using hp

/-- Witness for C7: two defaults error; a single default with no
descriptions gives a non-portal deck; one described entry gives a portal
deck. -/
theorem deck_default_and_portal_witness :
    deck_from_tokens ⟨"d"⟩ none none [(true, ⟨"a"⟩, none), (true, ⟨"b"⟩, none)]
      = .error .duplicateDefault
    ∧ (∃ d, deck_from_tokens ⟨"d"⟩ none none
        [(true, ⟨"a"⟩, none), (false, ⟨"b"⟩, none)]
      = .ok d ∧ d.is_portal_deck = false)
    ∧ (∀ d, deck_from_tokens ⟨"d"⟩ none none [(false, ⟨"a"⟩, some "seen")]
      = .ok d → d.is_portal_deck = true) :=
  ⟨(deck_default_and_portal ⟨"d"⟩ none none _).1 (by decide),
   (deck_default_and_portal ⟨"d"⟩ none none _).2.1 ⟨by decide, by decide⟩,
   fun d h => (deck_default_and_portal ⟨"d"⟩ none none _).2.2 d
     ⟨(false, ⟨"a"⟩, some "seen"), by decide, by decide⟩ h⟩

/-- C8: the spec says `card x "X" (aspectA, aspectA:2) { }` fails because
of the duplicate aspect.  The parse does fail and no Card is constructed,
but for a different reason: `card_aspect` lists the bare-defkey alternative
(with `success(1)`) first, so a `:amount` entry is never reachable — the
same syntax error occurs with two distinct aspects, while the duplicate
panic fires only for bare duplicates. -/
theorem card_aspects_amount_alternative_unreachable :
    card_aspects ("(aspectA, aspectA:2)".toList) = .err (":2)".toList) .charK
    ∧ card_aspects ("(aspectA, aspectB:2)".toList) = .err (":2)".toList) .charK
    ∧ card_aspects ("(aspectA, aspectA)".toList) = .fail [] (.sem .duplicateAspect)
    ∧ cardParse ("card x \"X\" (aspectA, aspectA:2) { }".toList)
      = .err (":2) { }".toList) .charK :=
  ⟨rfl, rfl, rfl, rfl⟩

/-- C9: the spec says leftover text after the last recognized Unit is a
fatal NonEmpty failure.  In the source, after any parsed unit the
`multispace0` separator of `separated_list0` consumes nothing (the unit
parsers already ate trailing whitespace), which nom treats as a recoverable
SeparatedList error — so a file with leftover text after a unit errs with
SeparatedList, and even a fully valid single-unit file fails the same way;
the NonEmpty failure fires only when no unit was recognized at all. -/
theorem crucible_leftover_yields_separatedlist :
    crucible "aspect a \"A\" \"B\" { } junk" = .err ("junk".toList) .separatedList
    ∧ crucible "aspect a \"A\" \"B\" { }" = .err [] .separatedList
    ∧ crucible "junk" = .fail ("junk".toList) .nonEmpty :=
  ⟨rfl, rfl, rfl⟩

/-- C10: the `spawn`/`mutate` keywords are matched without a word-boundary
check, so a bare transform target beginning with those letters is parsed
as the keyworded reaction with the prefix stripped:
`xtrigger cat -> spawnling:3` yields Spawn(cat, ling, 3, 100) and
`xtrigger cat -> mutateX:-2` yields Mutate(cat, X, -2, 100). -/
theorem xtrigger_spawn_keyword_prefix_stripping :
    xtrigger ("xtrigger cat -> spawnling:3".toList)
      = .ok [] (.Spawn ⟨"cat"⟩ ⟨"ling"⟩ 3 ⟨100⟩)
    ∧ xtrigger ("xtrigger cat -> mutateX:-2".toList)
      = .ok [] (.Mutate ⟨"cat"⟩ ⟨"X"⟩ (-2) ⟨100⟩) :=
  ⟨rfl, rfl⟩
